import Mathlib

/-!
Verification of the state-management core of the movie search / favorites
application (Redux slices, hooks and page handlers), shallowly embedded
in Lean.

Embedding conventions:
* TypeScript objects become structures; Redux reducers become pure
  functions `State → Action payload → State` (the `immer` mutations in the
  source are sequential field updates, rendered as functional updates in
  the same order).
* JavaScript string helpers (`trim`, `toLowerCase`, `parseInt`) are
  embedded over `String.data` (`List Char`) so that all definitions reduce
  inside the kernel; for the ASCII strings handled by this application they
  agree with the JS semantics.
* The async thunks (`createAsyncThunk`) are embedded as functions taking
  the outcome of the single network call as an explicit
  `Except String _` argument: `Except.ok` is the fulfilled path and
  `Except.error msg` is the `rejectWithValue(msg)` path.  The list of
  outbound requests is returned explicitly so that "no network call" is a
  provable statement.
* `localStorage` persistence is an external collaborator and is not part
  of the in-memory state transitions modelled here.
-/

namespace MovieApp

/-! ## JavaScript string primitives -/

/-- Model of JS `String.prototype.trim` (strip leading and trailing
whitespace), over the character list of the string. -/
def jsTrim (s : String) : String :=
  ⟨((s.data.dropWhile Char.isWhitespace).reverse.dropWhile Char.isWhitespace).reverse⟩

/-- Model of JS `String.prototype.toLowerCase` (ASCII case folding). -/
def jsToLower (s : String) : String :=
  ⟨s.data.map Char.toLower⟩

/-- Model of JS `parseInt(s, 10)`: skip leading whitespace, optional sign,
then the maximal digit prefix; `none` models `NaN`. -/
def jsParseInt (s : String) : Option Int :=
  let cs := s.data.dropWhile Char.isWhitespace
  let signed : Bool × List Char :=
    match cs with
    | '-' :: rest => (true, rest)
    | '+' :: rest => (false, rest)
    | _ => (false, cs)
  let ds := signed.2.takeWhile Char.isDigit
  if ds = [] then none
  else
    let n : Nat := ds.foldl (fun acc c => acc * 10 + (c.toNat - '0'.toNat)) 0
    some (if signed.1 then -(n : Int) else (n : Int))

/-! ## Data model (src/services/types/movie.ts) -/

/-- `Movie` record from `src/services/types/movie.ts`.  The TS field
`Type` is rendered as `Kind` (`Type` is a Lean keyword); the extended
detail attributes that play no role in the verified logic are kept as the
three representative optional fields `Plot`, `Director`, `Ratings`
(a rating is a `Source`/`Value` pair). -/
structure Movie where
  imdbID : String
  Title : String
  Year : String
  Poster : String
  Kind : String
  Plot : Option String := none
  Director : Option String := none
  Ratings : List (String × String) := []
deriving DecidableEq

/-! ## Movies slice (src/redux/slices/moviesSlice.ts, src/unnamed/part_006) -/

/-- `MoviesState` of the movies slice. -/
structure MoviesState where
  movies : List Movie
  loading : Bool
  error : Option String
  query : String
  totalResults : Nat
  currentPage : Nat
  currentMovie : Option Movie
deriving DecidableEq

/-- `initialState` of the movies slice. -/
def initialMoviesState : MoviesState :=
  { movies := [], loading := false, error := none, query := "",
    totalResults := 0, currentPage := 1, currentMovie := none }

/-- Payload returned by a fulfilled `searchMoviesAsync` thunk. -/
structure SearchPayload where
  movies : List Movie
  totalResults : Nat
  query : String
  page : Nat
deriving DecidableEq

/-- Reducer `setCurrentPage`. -/
def setCurrentPage (s : MoviesState) (page : Nat) : MoviesState :=
  { s with currentPage := page }

/-- Reducer `clearMovies`. -/
def clearMovies (s : MoviesState) : MoviesState :=
  { s with movies := [], error := none, query := "", totalResults := 0,
           currentPage := 1, currentMovie := none }

/-- Reducer for `searchMoviesAsync.pending`. -/
def searchPending (s : MoviesState) : MoviesState :=
  { s with loading := true, error := none }

/-- Reducer for `searchMoviesAsync.fulfilled`: on page 1 the list is
replaced; on a later page the returned items are appended after dropping
ids already present (`Set` membership on `imdbID`), and `currentMovie`
defaults to the first entry when unset. -/
def searchFulfilled (s : MoviesState) (p : SearchPayload) : MoviesState :=
  let s1 : MoviesState :=
    { s with loading := false, error := none, query := p.query,
             totalResults := p.totalResults, currentPage := p.page }
  let s2 : MoviesState :=
    if p.page = 1 then
      { s1 with movies := p.movies }
    else
      let existing := s1.movies.map (fun m => m.imdbID)
      let toAdd := p.movies.filter (fun m => !(existing.contains m.imdbID))
      { s1 with movies := s1.movies ++ toAdd }
  match s2.currentMovie, s2.movies with
  | none, m :: _ => { s2 with currentMovie := some m }
  | _, _ => s2

/-- Reducer for `searchMoviesAsync.rejected`. -/
def searchRejected (s : MoviesState) (msg : Option String) : MoviesState :=
  { s with loading := false, error := some (msg.getD "Search failed"),
           movies := [], currentMovie := none, totalResults := 0 }

/-- Reducer for `getMovieDetailsAsync.pending`. -/
def detailsPending (s : MoviesState) : MoviesState :=
  { s with loading := true, error := none }

/-- Reducer for `getMovieDetailsAsync.fulfilled`. -/
def detailsFulfilled (s : MoviesState) (m : Movie) : MoviesState :=
  { s with loading := false, currentMovie := some m }

/-- Reducer for `getMovieDetailsAsync.rejected`. -/
def detailsRejected (s : MoviesState) (msg : Option String) : MoviesState :=
  { s with loading := false, error := some (msg.getD "Failed to load details"),
           currentMovie := none }

/-! ## Favorites slice (src/redux/slices/favoritesSlice.ts, src/unnamed/part_007) -/

/-- `FavoritesState` of the favorites slice. -/
structure FavoritesState where
  items : List Movie
  loading : Bool
  error : Option String
deriving DecidableEq

/-- `initialState` of the favorites slice. -/
def initialFavoritesState : FavoritesState :=
  { items := [], loading := false, error := none }

/-- Model of JS `Array.prototype.findIndex`: index of the first element
satisfying the predicate (`none` models the JS return value `-1`). -/
def jsFindIdx {α : Type} (p : α → Bool) : List α → Option Nat
  | [] => none
  | x :: xs => if p x then some 0 else (jsFindIdx p xs).map (· + 1)

/-- Reducer `addToFavorites`: push at the end unless an item with the same
`imdbID` is already present. -/
def addToFavorites (s : FavoritesState) (m : Movie) : FavoritesState :=
  if (s.items.find? (fun item => item.imdbID == m.imdbID)).isSome then s
  else { s with items := s.items ++ [m] }

/-- Reducer `removeFromFavorites`. -/
def removeFromFavorites (s : FavoritesState) (id : String) : FavoritesState :=
  { s with items := s.items.filter (fun item => item.imdbID != id) }

/-- Reducer `toggleFavorite`: `splice` out the found index, or push. -/
def toggleFavorite (s : FavoritesState) (m : Movie) : FavoritesState :=
  match jsFindIdx (fun item => item.imdbID == m.imdbID) s.items with
  | some i => { s with items := s.items.eraseIdx i }
  | none => { s with items := s.items ++ [m] }

/-- Reducer `clearFavorites`. -/
def clearFavorites (s : FavoritesState) : FavoritesState :=
  { s with items := [] }

/-- One user-level mutation of the favorites collection. -/
inductive FavOp where
  | add (m : Movie)
  | remove (id : String)
  | toggle (m : Movie)
  | clear
deriving DecidableEq

/-- Dispatch one favorites action. -/
def applyFavOp (s : FavoritesState) : FavOp → FavoritesState
  | .add m => addToFavorites s m
  | .remove id => removeFromFavorites s id
  | .toggle m => toggleFavorite s m
  | .clear => clearFavorites s

/-- Run a sequence of favorites actions from the initial (empty) state. -/
def runFavOps (ops : List FavOp) : FavoritesState :=
  ops.foldl applyFavOp initialFavoritesState

/-- The `imdbID` column of a list of movies. -/
def idsOf (l : List Movie) : List String := l.map (fun m => m.imdbID)

/-! ## Search slice (src/redux/slices/searchSlice.ts, src/unnamed/part_008) -/

/-- `SearchState` of the search slice (recent-queries log lives here). -/
structure SearchState where
  query : String
  recentSearches : List String
  loading : Bool
  error : Option String
deriving DecidableEq

/-- `initialState` of the search slice (recent searches start empty;
their `localStorage` restore is an external effect). -/
def initialSearchState : SearchState :=
  { query := "", recentSearches := [], loading := false, error := none }

/-- Reducer `setSearchQuery`. -/
def setSearchQuery (s : SearchState) (q : String) : SearchState :=
  { s with query := q, error := none }

/-- Reducer `addRecentSearch`: normalize (trim + lowercase); when the
normalized query is truthy and longer than 2 characters, drop existing
occurrences, `unshift` it, and cut the list back to 10 entries.  The
`saveRecentSearches` persistence call is an external effect. -/
def addRecentSearch (s : SearchState) (payload : String) : SearchState :=
  let q := jsToLower (jsTrim payload)
  if q ≠ "" ∧ 2 < q.length then
    let rs1 := s.recentSearches.filter (fun searchTerm => searchTerm != q)
    let rs2 := q :: rs1
    let rs3 := if 10 < rs2.length then rs2.take 10 else rs2
    { s with recentSearches := rs3 }
  else s

/-- Reducer `removeRecentSearch`. -/
def removeRecentSearch (s : SearchState) (payload : String) : SearchState :=
  { s with recentSearches := s.recentSearches.filter (fun searchTerm => searchTerm != payload) }

/-! ## Search hook (src/hooks/useMovieSearch.ts) -/

/-- Combined store state seen by the hooks (`state.movies`, `state.search`). -/
structure AppState where
  movies : MoviesState
  search : SearchState
deriving DecidableEq

/-- The store with both slices in their initial states. -/
def initialAppState : AppState :=
  { movies := initialMoviesState, search := initialSearchState }

/-- One outbound request to the OMDb catalog endpoint: a term search
(`s=...&page=...`) or a fetch-by-identifier (`i=...&plot=full`). -/
inductive Request where
  | searchReq (query : String) (page : Nat)
  | detailReq (id : String)
deriving DecidableEq

/-- `searchMoviesAsync` dispatched on the movies slice: the pending
reducer runs, then the fulfilled or rejected reducer according to the
network outcome (payload: items plus parsed total). -/
def searchMoviesAsyncRun (s : MoviesState) (query : String) (page : Nat)
    (outcome : Except String (List Movie × Nat)) : MoviesState :=
  let s1 := searchPending s
  match outcome with
  | .ok (ms, total) =>
      searchFulfilled s1 { movies := ms, totalResults := total, query := query, page := page }
  | .error e => searchRejected s1 (some e)

/-- `getMovieDetailsAsync` dispatched on the movies slice. -/
def getMovieDetailsAsyncRun (s : MoviesState)
    (outcome : Except String Movie) : MoviesState :=
  let s1 := detailsPending s
  match outcome with
  | .ok m => detailsFulfilled s1 m
  | .error e => detailsRejected s1 (some e)

/-- The regex `/^tt\d\x7b7,8\x7d$/i` from `useMovieSearch.searchMovies`:
case-insensitive literal `tt` followed by exactly 7 or 8 digits. -/
def imdbIdPattern (s : String) : Bool :=
  match (jsToLower s).data with
  | 't' :: 't' :: ds => ds.all Char.isDigit && (ds.length == 7 || ds.length == 8)
  | _ => false

/-- Result of one `searchMovies` call from the hook: the store state after
the dispatched actions, the outbound requests, and the value the promise
resolves with (`none` when the call returned early or threw). -/
structure HookResult where
  state : AppState
  requests : List Request
  ret : Option SearchPayload
deriving DecidableEq

/-- `useMovieSearch.searchMovies(searchQuery, page)`: return early on an
empty trimmed query; otherwise dispatch `setSearchQuery` and
`addRecentSearch`, then either `getMovieDetailsAsync` (query matches the
IMDb-id pattern; a successful detail is wrapped as a one-element payload
with `totalResults = 1`) or `searchMoviesAsync`. -/
def searchMoviesHook (s : AppState) (searchQuery : String) (page : Nat)
    (searchResp : Except String (List Movie × Nat))
    (detailResp : Except String Movie) : HookResult :=
  if jsTrim searchQuery = "" then { state := s, requests := [], ret := none }
  else
    let sSearch := addRecentSearch (setSearchQuery s.search searchQuery) searchQuery
    if imdbIdPattern (jsTrim searchQuery) then
      let mv := getMovieDetailsAsyncRun s.movies detailResp
      match detailResp with
      | .ok m =>
          { state := { movies := mv, search := sSearch },
            requests := [.detailReq (jsTrim searchQuery)],
            ret := some { movies := [m], totalResults := 1, query := searchQuery, page := page } }
      | .error _ =>
          { state := { movies := mv, search := sSearch },
            requests := [.detailReq (jsTrim searchQuery)], ret := none }
    else
      let mv := searchMoviesAsyncRun s.movies searchQuery page searchResp
      match searchResp with
      | .ok (ms, total) =>
          { state := { movies := mv, search := sSearch },
            requests := [.searchReq searchQuery page],
            ret := some { movies := ms, totalResults := total, query := searchQuery, page := page } }
      | .error _ =>
          { state := { movies := mv, search := sSearch },
            requests := [.searchReq searchQuery page], ret := none }

/-- `useMovieSearch.loadMoreMovies()`: return early when there is no
active query or a request is in flight; otherwise set the cursor to the
next page, dispatch the search thunk, and on failure restore the cursor
to its captured previous value. -/
def loadMoreMovies (s : AppState)
    (searchResp : Except String (List Movie × Nat)) : AppState :=
  if s.search.query = "" ∨ s.movies.loading = true then s
  else
    let nextPage := s.movies.currentPage + 1
    let origPage := s.movies.currentPage
    let mv1 := setCurrentPage s.movies nextPage
    let mv2 := searchMoviesAsyncRun mv1 s.search.query nextPage searchResp
    match searchResp with
    | .ok _ => { movies := mv2, search := s.search }
    | .error _ => { movies := setCurrentPage mv2 origPage, search := s.search }

/-! ## Home page handler (src/components/pages/Home.tsx, src/unnamed/part_004) -/

/-- Minimum query length from `src/utils/constants.ts`. -/
def MIN_SEARCH_LENGTH : Nat := 3

/-- The too-generic query words rejected by `Home.handleSearch`. -/
def commonWords : List String :=
  ["the", "and", "or", "but", "in", "on", "at", "to", "for", "of",
   "with", "by", "movie", "film", "cinema"]

/-- Result of `Home.handleSearch`: store state, outbound requests and the
last value passed to `setShowCommonWordWarning` (`none` when it was not
called). -/
structure HomeResult where
  state : AppState
  requests : List Request
  showCommonWordWarning : Option Bool
deriving DecidableEq

/-- `Home.handleSearch(searchQuery)`: only a query whose trimmed length
reaches `MIN_SEARCH_LENGTH` and is not a too-common word is handed to
`searchMovies` (with the trimmed text and default page 1). -/
def handleSearch (s : AppState) (searchQuery : String)
    (searchResp : Except String (List Movie × Nat))
    (detailResp : Except String Movie) : HomeResult :=
  let trimmedQuery := jsTrim searchQuery
  if MIN_SEARCH_LENGTH ≤ trimmedQuery.length then
    let isTooCommon :=
      commonWords.contains (jsToLower trimmedQuery) || decide (trimmedQuery.length < 3)
    if isTooCommon then
      { state := s, requests := [], showCommonWordWarning := some true }
    else
      let r := searchMoviesHook s trimmedQuery 1 searchResp detailResp
      { state := r.state, requests := r.requests, showCommonWordWarning := some false }
  else
    { state := s, requests := [], showCommonWordWarning := none }

/-! ## Charts aggregation (src/components/pages/Charts/Charts.tsx) -/

/-- One step of building the `years` accumulator object:
`years[year] = (years[year] || 0) + 1`, rendered on an association list
(keys are unique by construction).  The JS object enumerates integer-like
keys in ascending order rather than insertion order; every property proved
about `yearStats` below is insensitive to this pre-sort enumeration
order, so first-occurrence order is used here. -/
def bumpYear : List (String × Nat) → String → List (String × Nat)
  | [], y => [(y, 1)]
  | (k, c) :: rest, y =>
      if k = y then (k, c + 1) :: rest else (k, c) :: bumpYear rest y

/-- The `years` object of `Charts.yearStats` as `(year, count)` entries. -/
def countsByYear (favs : List Movie) : List (String × Nat) :=
  favs.foldl (fun acc m => bumpYear acc m.Year) []

/-- The sort comparator `([a], [b]) => parseInt(b) - parseInt(a)`; a `NaN`
comparison result is treated as `0`, as the ES `SortCompare` does. -/
def yearCompare (x y : String × Nat) : Int :=
  match jsParseInt y.1, jsParseInt x.1 with
  | some bv, some av => bv - av
  | _, _ => 0

/-- Boolean "sorts no later than" for the year comparator. -/
def yearLe (x y : String × Nat) : Bool := decide (yearCompare x y ≤ 0)

/-- Stable insertion into a sorted list (auxiliary to `stableSort`). -/
def sortInsert {α : Type} (le : α → α → Bool) (x : α) : List α → List α
  | [] => [x]
  | y :: ys => if le x y then x :: y :: ys else y :: sortInsert le x ys

/-- Model of `Array.prototype.sort(comparefn)`: ECMAScript requires a
stable sort whose output is ordered by the comparator; stable insertion
sort realizes that contract. -/
def stableSort {α : Type} (le : α → α → Bool) : List α → List α
  | [] => []
  | x :: xs => sortInsert le x (stableSort le xs)

/-- `Charts.yearStats`: entries of the per-year counts, sorted by
`parseInt(year)` descending and cut to the first 10. -/
def yearStats (favs : List Movie) : List (String × Nat) :=
  (stableSort yearLe (countsByYear favs)).take 10

/-- First-match count lookup in a `(year, count)` association list
(`0` models an absent object key), used to state correctness of
`countsByYear`. -/
def lookupCount (l : List (String × Nat)) (y : String) : Nat :=
  match l.find? (fun p => p.1 == y) with
  | some p => p.2
  | none => 0

/-- The key column of a `(year, count)` association list. -/
def keysOf (l : List (String × Nat)) : List String := l.map (fun p => p.1)

/-! ## Concrete sample data for witnesses and counterexamples -/

/-- Sample catalog item (The Avengers, 2012). -/
def movieA : Movie :=
  { imdbID := "tt0848228", Title := "The Avengers", Year := "2012",
    Poster := "N/A", Kind := "movie" }

/-- Sample catalog item (Iron Man, 2008). -/
def movieB : Movie :=
  { imdbID := "tt0371746", Title := "Iron Man", Year := "2008",
    Poster := "N/A", Kind := "movie" }

/-- Sample catalog item (Thor, 2011). -/
def movieC : Movie :=
  { imdbID := "tt0800369", Title := "Thor", Year := "2011",
    Poster := "N/A", Kind := "movie" }

/-- Sample catalog item (The Dark Knight Rises, 2012). -/
def movieD : Movie :=
  { imdbID := "tt1345836", Title := "The Dark Knight Rises", Year := "2012",
    Poster := "N/A", Kind := "movie" }

/-- Sample detail record with extended fields populated. -/
def movieG2 : Movie :=
  { imdbID := "tt3896198", Title := "Guardians of the Galaxy Vol. 2",
    Year := "2017", Poster := "N/A", Kind := "movie",
    Plot := some "The Guardians struggle to keep together as a team.",
    Director := some "James Gunn",
    Ratings := [("Internet Movie Database", "7.6/10")] }

/-- A movies-slice state holding one already-loaded result. -/
def exStateC1 : MoviesState :=
  { initialMoviesState with movies := [movieA], totalResults := 12, query := "avengers" }

/-- A page-2 payload overlapping the already-loaded result. -/
def exPayloadC1 : SearchPayload :=
  { movies := [movieA, movieB, movieC], totalResults := 12, query := "avengers", page := 2 }

/-- A movies-slice state with a loaded list, for the C3 counterexample. -/
def exStateC3 : MoviesState :=
  { initialMoviesState with movies := [movieA], totalResults := 1, query := "avengers" }

/-- A store state with an active query on page 2, for the C10 witness. -/
def exStateC10 : AppState :=
  { movies := { initialMoviesState with currentPage := 2, movies := [movieA], totalResults := 12 },
    search := { initialSearchState with query := "avengers" } }

/-- C1: a fulfilled page-1 search replaces the whole result list with the
returned page, while a fulfilled search for a later page appends, after
the existing items and in catalog order, exactly those returned items
whose `imdbID` is not already present. -/
theorem C1_search_page_merge (s : MoviesState) (p : SearchPayload) :
    (p.page = 1 → (searchFulfilled s p).movies = p.movies) ∧
    (1 < p.page →
      (searchFulfilled s p).movies =
        s.movies ++ p.movies.filter
          (fun m => !((s.movies.map (fun x => x.imdbID)).contains m.imdbID))) := by
  constructor
  · intro h
    unfold searchFulfilled
    simp only [h, if_pos]
    split <;> rfl
  · intro h
    have h1 : ¬ p.page = 1 := by omega
    unfold searchFulfilled
    simp only [h1, if_false]
    split <;> rfl

/-- C1 witness: appending page 2 over an already-loaded list at a
concrete state. -/
theorem C1_search_page_merge_witness :
    1 < exPayloadC1.page ∧
    (searchFulfilled exStateC1 exPayloadC1).movies =
      exStateC1.movies ++ exPayloadC1.movies.filter
        (fun m => !((exStateC1.movies.map (fun x => x.imdbID)).contains m.imdbID)) :=
  ⟨by decide, (C1_search_page_merge exStateC1 exPayloadC1).2 (by decide)⟩

/-- C3 counterexample: a failed fetch-by-identifier resolution leaves the
previously loaded result list and total count in place, so the claimed
"empty result list, total count zero" does not hold for that failure. -/
theorem C3_details_failure_counterexample :
    (detailsRejected exStateC3 (some "network down")).movies ≠ [] ∧
    (detailsRejected exStateC3 (some "network down")).totalResults ≠ 0 := by decide

/-- C3 (amended): a failed term search clears the list and total count,
sets loading false and a non-null message; a failed detail resolution
sets loading false, a non-null message and clears only `currentMovie`,
leaving `movies` and `totalResults` unchanged; a failing `searchMovies`
call issues at most one request (no automatic retry). -/
theorem C3_failure_semantics (s : MoviesState) (msg : Option String) :
    ((searchRejected s msg).movies = [] ∧ (searchRejected s msg).totalResults = 0 ∧
      (searchRejected s msg).loading = false ∧ (searchRejected s msg).error.isSome = true) ∧
    ((detailsRejected s msg).loading = false ∧ (detailsRejected s msg).error.isSome = true ∧
      (detailsRejected s msg).currentMovie = none ∧
      (detailsRejected s msg).movies = s.movies ∧
      (detailsRejected s msg).totalResults = s.totalResults) ∧
    (∀ (a : AppState) (q : String) (page : Nat) (e e2 : String),
      ((searchMoviesHook a q page (Except.error e) (Except.error e2)).requests).length ≤ 1) := by
  refine ⟨⟨rfl, rfl, rfl, rfl⟩, ⟨rfl, rfl, rfl, rfl, rfl⟩, ?_⟩
  intro a q page e e2
  unfold searchMoviesHook
  split
  · simp
  · split <;> simp

/-- C10: when the load-more fetch fails, the page cursor ends at its
value from before the call; when the guard let the call through, the
failure is recorded in the error field. -/
theorem C10_loadMore_failure_keeps_cursor (s : AppState) (e : String) :
    (loadMoreMovies s (Except.error e)).movies.currentPage = s.movies.currentPage ∧
    (s.search.query ≠ "" → s.movies.loading = false →
      (loadMoreMovies s (Except.error e)).movies.error = some e) := by
  constructor
  · unfold loadMoreMovies
    split
    · rfl
    · rfl
  · intro h1 h2
    unfold loadMoreMovies
    rw [if_neg (by simp [h1, h2])]
    rfl

/-- C10 witness: a failed page-3 fetch at a concrete page-2 state leaves
the cursor at 2 and records the message. -/
theorem C10_loadMore_failure_keeps_cursor_witness :
    (loadMoreMovies exStateC10 (Except.error "HTTP 500")).movies.currentPage = 2 ∧
    (loadMoreMovies exStateC10 (Except.error "HTTP 500")).movies.error = some "HTTP 500" :=
  ⟨(C10_loadMore_failure_keeps_cursor exStateC10 "HTTP 500").1.trans (by decide),
   (C10_loadMore_failure_keeps_cursor exStateC10 "HTTP 500").2 (by decide) (by decide)⟩

/-! ## Favorites lemmas -/

theorem jsFindIdx_eq_none {α : Type} (p : α → Bool) (l : List α) :
    jsFindIdx p l = none ↔ ∀ x ∈ l, p x = false := by
  induction l with
  | nil => simp [jsFindIdx]
  | cons x xs ih =>
    by_cases h : p x = true
    · simp [jsFindIdx, h]
    · have hx : p x = false := by simpa using h
      simp [jsFindIdx, hx, Option.map_eq_none', ih]

theorem jsFindIdx_some_mem {α : Type} (p : α → Bool) :
    ∀ (l : List α) (i : Nat), jsFindIdx p l = some i → ∃ x ∈ l, p x = true := by
  intro l
  induction l with
  | nil => intro i h; simp [jsFindIdx] at h
  | cons x xs ih =>
    intro i h
    by_cases hx : p x = true
    · exact ⟨x, by simp, hx⟩
    · have hx' : p x = false := by simpa using hx
      simp only [jsFindIdx, hx', Bool.false_eq_true, if_false, Option.map_eq_some'] at h
      obtain ⟨j, hj, _⟩ := h
      obtain ⟨y, hy, hpy⟩ := ih j hj
      exact ⟨y, by simp [hy], hpy⟩

theorem jsFindIdx_append_last {α : Type} (p : α → Bool) (a : α) (hpa : p a = true) :
    ∀ l : List α, (∀ x ∈ l, p x = false) → jsFindIdx p (l ++ [a]) = some l.length := by
  intro l
  induction l with
  | nil => intro _; simp [jsFindIdx, hpa]
  | cons x xs ih =>
    intro hall
    have hx : p x = false := hall x (by simp)
    have := ih (fun y hy => hall y (by simp [hy]))
    simp [jsFindIdx, hx, this]

theorem eraseIdx_append_singleton {α : Type} (a : α) :
    ∀ l : List α, (l ++ [a]).eraseIdx l.length = l := by
  intro l
  induction l with
  | nil => rfl
  | cons x xs ih => simpa [List.eraseIdx] using ih

theorem eraseIdx_found_all_false (a : String) :
    ∀ (l : List Movie) (i : Nat), (idsOf l).Nodup →
      jsFindIdx (fun it => it.imdbID == a) l = some i →
      ∀ x ∈ l.eraseIdx i, (x.imdbID == a) = false := by
  intro l
  induction l with
  | nil => intro i _ h; simp [jsFindIdx] at h
  | cons x xs ih =>
    intro i hnd hf y hy
    have hnd' : x.imdbID ∉ idsOf xs ∧ (idsOf xs).Nodup := by
      simpa [idsOf, List.nodup_cons] using hnd
    by_cases hx : (x.imdbID == a) = true
    · have hi : i = 0 := by
        simp only [jsFindIdx, hx, if_pos, Option.some.injEq] at hf
        omega
      subst hi
      simp only [List.eraseIdx] at hy
      by_contra hcon
      have hya : y.imdbID = a := by
        have := Bool.of_not_eq_false hcon
        exact beq_iff_eq.mp this
      have hxa : x.imdbID = a := beq_iff_eq.mp hx
      exact hnd'.1 (by rw [hxa, ← hya]; exact List.mem_map.mpr ⟨y, hy, rfl⟩)
    · have hx' : (x.imdbID == a) = false := by simpa using hx
      simp only [jsFindIdx, hx', Bool.false_eq_true, if_false, Option.map_eq_some'] at hf
      obtain ⟨j, hj, hij⟩ := hf
      subst hij
      simp only [List.eraseIdx, List.mem_cons] at hy
      cases hy with
      | inl he => rw [he]; exact hx'
      | inr hm => exact ih j hnd'.2 hj y hm

theorem addToFavorites_mem_noop (s : FavoritesState) (m : Movie)
    (h : ∃ it ∈ s.items, it.imdbID = m.imdbID) : addToFavorites s m = s := by
  unfold addToFavorites
  rw [if_pos]
  obtain ⟨it, hmem, hid⟩ := h
  exact List.find?_isSome.mpr ⟨it, hmem, by simp [hid]⟩

theorem applyFavOp_ids_nodup (s : FavoritesState) (op : FavOp)
    (h : (idsOf s.items).Nodup) : (idsOf (applyFavOp s op).items).Nodup := by
  cases op with
  | add m =>
    show (idsOf (addToFavorites s m).items).Nodup
    unfold addToFavorites
    split
    · exact h
    · next hfind =>
      have hnone : s.items.find? (fun item => item.imdbID == m.imdbID) = none :=
        Option.not_isSome_iff_eq_none.mp (by simpa using hfind)
      have hnotmem : m.imdbID ∉ idsOf s.items := by
        intro hm
        obtain ⟨x, hx, hxe⟩ := List.mem_map.mp hm
        have := List.find?_eq_none.mp hnone x hx
        exact this (by simp [hxe])
      have hperm : (idsOf (s.items ++ [m])).Perm (m.imdbID :: idsOf s.items) := by
        simp only [idsOf, List.map_append, List.map]
        exact List.perm_append_singleton m.imdbID (List.map (fun m => m.imdbID) s.items)
      rw [hperm.nodup_iff]
      exact List.nodup_cons.mpr ⟨hnotmem, h⟩
  | remove id =>
    show (idsOf (s.items.filter (fun item => item.imdbID != id))).Nodup
    unfold idsOf
    exact h.sublist ((List.filter_sublist s.items).map (fun m => m.imdbID))
  | toggle m =>
    show (idsOf (toggleFavorite s m).items).Nodup
    unfold toggleFavorite
    split
    · next i _ =>
      show (idsOf (s.items.eraseIdx i)).Nodup
      unfold idsOf
      exact h.sublist ((List.eraseIdx_sublist s.items i).map (fun m => m.imdbID))
    · next hnone =>
      have hall := (jsFindIdx_eq_none _ _).mp hnone
      have hnotmem : m.imdbID ∉ idsOf s.items := by
        intro hm
        obtain ⟨x, hx, hxe⟩ := List.mem_map.mp hm
        have := hall x hx
        simp [hxe] at this
      have hperm : (idsOf (s.items ++ [m])).Perm (m.imdbID :: idsOf s.items) := by
        simp only [idsOf, List.map_append, List.map]
        exact List.perm_append_singleton m.imdbID (List.map (fun m => m.imdbID) s.items)
      rw [hperm.nodup_iff]
      exact List.nodup_cons.mpr ⟨hnotmem, h⟩
  | clear => simp [applyFavOp, clearFavorites, idsOf]

theorem foldl_favOps_nodup :
    ∀ (ops : List FavOp) (s : FavoritesState), (idsOf s.items).Nodup →
      (idsOf (ops.foldl applyFavOp s).items).Nodup := by
  intro ops
  induction ops with
  | nil => intro s h; exact h
  | cons op rest ih => intro s h; exact ih _ (applyFavOp_ids_nodup s op h)

/-- C2: every sequence of add/remove/toggle/clear actions from the empty
favorites state yields a list whose `imdbID`s are pairwise distinct, and
adding an item whose id is already present is a no-op. -/
theorem C2_favorites_unique (ops : List FavOp) :
    (idsOf (runFavOps ops).items).Nodup ∧
    (∀ (s : FavoritesState) (m : Movie),
      (∃ it ∈ s.items, it.imdbID = m.imdbID) → addToFavorites s m = s) :=
  ⟨foldl_favOps_nodup ops initialFavoritesState (by simp [initialFavoritesState, idsOf]),
   fun s m h => addToFavorites_mem_noop s m h⟩

/-- C2 witness: a concrete action sequence with repeated adds and toggles
keeps ids distinct, and a duplicate add at a concrete state is a no-op. -/
theorem C2_favorites_unique_witness :
    (idsOf (runFavOps [.add movieA, .add movieB, .add movieA, .toggle movieC,
        .toggle movieC, .toggle movieB, .remove "tt0848228", .add movieC]).items).Nodup ∧
    addToFavorites { items := [movieA], loading := false, error := none } movieA
      = { items := [movieA], loading := false, error := none } :=
  ⟨(C2_favorites_unique [.add movieA, .add movieB, .add movieA, .toggle movieC,
      .toggle movieC, .toggle movieB, .remove "tt0848228", .add movieC]).1,
   (C2_favorites_unique []).2 { items := [movieA], loading := false, error := none }
     movieA ⟨movieA, by simp, rfl⟩⟩

/-- C8: toggling the same item twice in a row restores the membership of
its id, on any favorites state whose ids are pairwise distinct (the
data-model invariant maintained by every reachable state, see C2). -/
theorem C8_toggle_twice (s : FavoritesState) (m : Movie)
    (h : (idsOf s.items).Nodup) :
    ((toggleFavorite (toggleFavorite s m) m).items.any (fun it => it.imdbID == m.imdbID))
      = (s.items.any (fun it => it.imdbID == m.imdbID)) := by
  cases hf : jsFindIdx (fun it => it.imdbID == m.imdbID) s.items with
  | none =>
    have hall := (jsFindIdx_eq_none _ _).mp hf
    have ht1 : toggleFavorite s m = { s with items := s.items ++ [m] } := by
      unfold toggleFavorite
      rw [hf]
    have hfound : jsFindIdx (fun it => it.imdbID == m.imdbID) (s.items ++ [m])
        = some s.items.length :=
      jsFindIdx_append_last _ m (by simp) s.items hall
    have ht2 : toggleFavorite { s with items := s.items ++ [m] } m
        = { s with items := (s.items ++ [m]).eraseIdx s.items.length } := by
      unfold toggleFavorite
      rw [show ({ s with items := s.items ++ [m] } : FavoritesState).items
            = s.items ++ [m] from rfl, hfound]
    rw [ht1, ht2, show ({ s with items := (s.items ++ [m]).eraseIdx s.items.length }
          : FavoritesState).items = (s.items ++ [m]).eraseIdx s.items.length from rfl,
        eraseIdx_append_singleton m s.items]
  | some i =>
    have ht1 : toggleFavorite s m = { s with items := s.items.eraseIdx i } := by
      unfold toggleFavorite
      rw [hf]
    have hall2 := eraseIdx_found_all_false m.imdbID s.items i h hf
    have hfound2 : jsFindIdx (fun it => it.imdbID == m.imdbID) (s.items.eraseIdx i)
        = none := (jsFindIdx_eq_none _ _).mpr hall2
    have ht2 : toggleFavorite { s with items := s.items.eraseIdx i } m
        = { s with items := s.items.eraseIdx i ++ [m] } := by
      unfold toggleFavorite
      rw [show ({ s with items := s.items.eraseIdx i } : FavoritesState).items
            = s.items.eraseIdx i from rfl, hfound2]
    have hany2 : (s.items.eraseIdx i).any (fun it => it.imdbID == m.imdbID) = false := by
      cases hc : (s.items.eraseIdx i).any (fun it => it.imdbID == m.imdbID) with
      | false => rfl
      | true =>
        obtain ⟨y, hy, hpy⟩ := List.any_eq_true.mp hc
        rw [hall2 y hy] at hpy
        cases hpy
    have hany1 : s.items.any (fun it => it.imdbID == m.imdbID) = true := by
      obtain ⟨y, hy, hpy⟩ := jsFindIdx_some_mem _ s.items i hf
      exact List.any_eq_true.mpr ⟨y, hy, hpy⟩
    rw [ht1, ht2, show ({ s with items := s.items.eraseIdx i ++ [m] }
          : FavoritesState).items = s.items.eraseIdx i ++ [m] from rfl,
        List.any_append, hany2, hany1]
    simp

/-- C8 witness: toggling an absent item twice on a concrete two-element
favorites state restores its (absent) membership. -/
theorem C8_toggle_twice_witness :
    ((toggleFavorite (toggleFavorite
          { items := [movieA, movieC], loading := false, error := none } movieB)
        movieB).items.any (fun it => it.imdbID == movieB.imdbID))
      = (({ items := [movieA, movieC], loading := false, error := none }
          : FavoritesState).items.any (fun it => it.imdbID == movieB.imdbID)) :=
  C8_toggle_twice { items := [movieA, movieC], loading := false, error := none }
    movieB (by decide)

/-! ## Search hook and page-level gating -/

theorem imdbIdPattern_ne_empty {str : String} (h : imdbIdPattern str = true) :
    str ≠ "" :=
  fun he => absurd (he ▸ h) (by decide)

/-- C4 counterexample: the hook-level search operation, given the 2-letter
term "Up" (trimmed length 2, below the threshold 3), still issues a term
search request and changes the stored query. -/
theorem C4_short_term_counterexample :
    (jsTrim "Up").length = 2 ∧
    (searchMoviesHook initialAppState "Up" 1 (Except.error "net") (Except.error "net")).requests
      = [Request.searchReq "Up" 1] ∧
    (searchMoviesHook initialAppState "Up" 1 (Except.error "net")
        (Except.error "net")).state.search.query = "Up" := by decide

/-- C4 (amended): the minimum-length rejection is enforced by the page
level `handleSearch`, which for a term of trimmed length below 3 makes no
request and leaves the store unchanged; the hook-level search operation
itself only returns early (no state change, no request) on a term that
trims to empty. -/
theorem C4_min_length_gate (s : AppState) (q : String) (page : Nat)
    (sr : Except String (List Movie × Nat)) (dr : Except String Movie) :
    ((jsTrim q).length < MIN_SEARCH_LENGTH →
      (handleSearch s q sr dr).state = s ∧ (handleSearch s q sr dr).requests = []) ∧
    (jsTrim q = "" →
      searchMoviesHook s q page sr dr = { state := s, requests := [], ret := none }) := by
  constructor
  · intro h
    unfold handleSearch
    rw [if_neg (by omega)]
    exact ⟨rfl, rfl⟩
  · intro h
    unfold searchMoviesHook
    rw [if_pos h]

/-- C4 witness: " Up " is gated by `handleSearch` with no request and no
state change, and an all-blank term is a no-op of the hook itself. -/
theorem C4_min_length_gate_witness :
    (jsTrim " Up ").length < MIN_SEARCH_LENGTH ∧
    (handleSearch initialAppState " Up " (Except.error "net") (Except.error "net")).state
      = initialAppState ∧
    (handleSearch initialAppState " Up " (Except.error "net") (Except.error "net")).requests
      = [] ∧
    searchMoviesHook initialAppState "   " 1 (Except.error "net") (Except.error "net")
      = { state := initialAppState, requests := [], ret := none } :=
  ⟨by decide,
   ((C4_min_length_gate initialAppState " Up " 1 (Except.error "net")
       (Except.error "net")).1 (by decide)).1,
   ((C4_min_length_gate initialAppState " Up " 1 (Except.error "net")
       (Except.error "net")).1 (by decide)).2,
   (C4_min_length_gate initialAppState "   " 1 (Except.error "net")
       (Except.error "net")).2 (by decide)⟩

/-- C5 counterexample: a term search that fails still records the
normalized term into the recent-searches log, and a query taking the
identifier (detail-by-id) path records it as well. -/
theorem C5_recording_counterexample :
    (searchMoviesHook initialAppState "batman" 1 (Except.error "HTTP 500")
        (Except.error "HTTP 500")).state.search.recentSearches = ["batman"] ∧
    (searchMoviesHook initialAppState "batman" 1 (Except.error "HTTP 500")
        (Except.error "HTTP 500")).state.movies.error = some "HTTP 500" ∧
    (searchMoviesHook initialAppState "tt3896198" 1 (Except.error "x")
        (Except.ok movieG2)).state.search.recentSearches = ["tt3896198"] ∧
    (searchMoviesHook initialAppState "tt3896198" 1 (Except.error "x")
        (Except.ok movieG2)).requests = [Request.detailReq "tt3896198"] := by decide

/-- C5 (amended): for every non-empty trimmed term, the hook records the
term into the recent-searches log (via `setSearchQuery` then
`addRecentSearch`) before the request resolves, identically on the term
and identifier paths and independently of the request outcome. -/
theorem C5_record_unconditional (s : AppState) (q : String) (page : Nat)
    (sr sr2 : Except String (List Movie × Nat)) (dr dr2 : Except String Movie)
    (h : jsTrim q ≠ "") :
    (searchMoviesHook s q page sr dr).state.search
      = addRecentSearch (setSearchQuery s.search q) q ∧
    (searchMoviesHook s q page sr dr).state.search
      = (searchMoviesHook s q page sr2 dr2).state.search := by
  have key : ∀ (sr3 : Except String (List Movie × Nat)) (dr3 : Except String Movie),
      (searchMoviesHook s q page sr3 dr3).state.search
        = addRecentSearch (setSearchQuery s.search q) q := by
    intro sr3 dr3
    unfold searchMoviesHook
    rw [if_neg h]
    by_cases hp : imdbIdPattern (jsTrim q) = true
    · simp only [hp, if_true]
      cases dr3 <;> rfl
    · simp only [hp, if_false]
      cases sr3 with
      | ok v => cases v; rfl
      | error e => rfl
  exact ⟨key sr dr, (key sr dr).trans (key sr2 dr2).symm⟩

/-- C5 witness: a successful term search at the initial state records the
normalized term, and the log is the same as for a failing outcome. -/
theorem C5_record_unconditional_witness :
    (searchMoviesHook initialAppState "Batman Begins" 1 (Except.ok ([movieA], 1))
        (Except.error "x")).state.search
      = addRecentSearch (setSearchQuery initialAppState.search "Batman Begins")
          "Batman Begins" ∧
    (searchMoviesHook initialAppState "Batman Begins" 1 (Except.ok ([movieA], 1))
        (Except.error "x")).state.search
      = (searchMoviesHook initialAppState "Batman Begins" 1 (Except.error "HTTP 500")
        (Except.error "x")).state.search :=
  C5_record_unconditional initialAppState "Batman Begins" 1 (Except.ok ([movieA], 1))
    (Except.error "HTTP 500") (Except.error "x") (Except.error "x") (by decide)

/-- C7: a query whose trimmed text matches the IMDb identifier pattern is
dispatched as a fetch-by-identifier (no term-search request), and on
success the hook resolves with a one-element result set containing the
fetched item and `totalResults = 1`. -/
theorem C7_id_redirect (s : AppState) (q : String) (page : Nat)
    (sr : Except String (List Movie × Nat)) (m : Movie)
    (h : imdbIdPattern (jsTrim q) = true) :
    (searchMoviesHook s q page sr (Except.ok m)).requests
      = [Request.detailReq (jsTrim q)] ∧
    (searchMoviesHook s q page sr (Except.ok m)).ret
      = some { movies := [m], totalResults := 1, query := q, page := page } := by
  have hne : jsTrim q ≠ "" := imdbIdPattern_ne_empty h
  unfold searchMoviesHook
  rw [if_neg hne]
  simp [h]

/-- C7 witness: searching for " tt3896198 " fetches by identifier and
wraps the returned detail record as a single-item payload. -/
theorem C7_id_redirect_witness :
    imdbIdPattern (jsTrim " tt3896198 ") = true ∧
    (searchMoviesHook initialAppState " tt3896198 " 1 (Except.error "unused")
        (Except.ok movieG2)).requests = [Request.detailReq (jsTrim " tt3896198 ")] ∧
    (searchMoviesHook initialAppState " tt3896198 " 1 (Except.error "unused")
        (Except.ok movieG2)).ret
      = some { movies := [movieG2], totalResults := 1, query := " tt3896198 ", page := 1 } :=
  ⟨by decide,
   (C7_id_redirect initialAppState " tt3896198 " 1 (Except.error "unused") movieG2
     (by decide)).1,
   (C7_id_redirect initialAppState " tt3896198 " 1 (Except.error "unused") movieG2
     (by decide)).2⟩

/-! ## Recent-queries lemmas -/

theorem filter_bne_length_lt (q : String) :
    ∀ l : List String, q ∈ l → (l.filter (fun x => x != q)).length < l.length := by
  intro l
  induction l with
  | nil => intro h; cases h
  | cons x xs ih =>
    intro h
    by_cases hx : x = q
    · have hfx : (x != q) = false := by simp [hx]
      rw [List.filter_cons, hfx]
      simp only [Bool.false_eq_true, if_false, List.length_cons]
      exact Nat.lt_succ_of_le (List.length_filter_le _ xs)
    · have hfx : (x != q) = true := by simp [hx]
      rw [List.filter_cons, hfx]
      have hmem : q ∈ xs := by
        cases List.mem_cons.mp h with
        | inl he => exact absurd he.symm hx
        | inr hm => exact hm
      simp only [if_true, List.length_cons]
      exact Nat.succ_lt_succ (ih hmem)

theorem addRecentSearch_active (s : SearchState) (t : String)
    (h2 : 2 < (jsToLower (jsTrim t)).length) :
    (addRecentSearch s t).recentSearches
      = (jsToLower (jsTrim t) ::
          s.recentSearches.filter (fun x => x != jsToLower (jsTrim t))).take 10 := by
  have hne : jsToLower (jsTrim t) ≠ "" := by
    intro he
    rw [he] at h2
    exact absurd h2 (by decide)
  simp only [addRecentSearch]
  rw [if_pos ⟨hne, h2⟩]
  split
  · rfl
  · next h10 =>
    rw [List.take_of_length_le (by omega)]

/-- C6: `addRecentSearch` normalizes the term (trim + lowercase) and is a
no-op when the normalized length is below 3; otherwise the resulting log
is the normalized term in front of the previous log purged of that term,
cut to 10 entries (hence never longer than 10); and re-recording a term
already present does not lengthen the log. -/
theorem C6_record_spec (s : SearchState) (t : String) :
    ((jsToLower (jsTrim t)).length < 3 → addRecentSearch s t = s) ∧
    (3 ≤ (jsToLower (jsTrim t)).length →
      (addRecentSearch s t).recentSearches
        = (jsToLower (jsTrim t) ::
            s.recentSearches.filter (fun x => x != jsToLower (jsTrim t))).take 10 ∧
      (addRecentSearch s t).recentSearches.length ≤ 10) ∧
    (jsToLower (jsTrim t) ∈ s.recentSearches →
      (addRecentSearch s t).recentSearches.length ≤ s.recentSearches.length) := by
  refine ⟨?_, ?_, ?_⟩
  · intro h
    simp only [addRecentSearch]
    rw [if_neg (fun hc => absurd hc.2 (by omega))]
  · intro h
    have heq := addRecentSearch_active s t (by omega)
    refine ⟨heq, ?_⟩
    rw [heq, List.length_take]
    omega
  · intro hmem
    by_cases h2 : 2 < (jsToLower (jsTrim t)).length
    · have heq := addRecentSearch_active s t h2
      rw [heq]
      have hlt := filter_bne_length_lt (jsToLower (jsTrim t)) s.recentSearches hmem
      rw [List.length_take]
      simp only [List.length_cons]
      omega
    · simp only [addRecentSearch]
      rw [if_neg (fun hc => absurd hc.2 h2)]

/-- C6 witness: recording "Batman" over a full 10-entry log containing
its normalization keeps the length at 10 and moves it to the front. -/
theorem C6_record_spec_witness :
    (addRecentSearch
        { query := "", loading := false, error := none,
          recentSearches := ["alien", "batman", "casino", "dune", "elf",
                             "fargo", "gandhi", "heat", "inception", "jaws"] }
        " Batman ").recentSearches
      = ("batman" ::
          (["alien", "batman", "casino", "dune", "elf", "fargo", "gandhi",
            "heat", "inception", "jaws"].filter (fun x => x != "batman"))).take 10 ∧
    (addRecentSearch
        { query := "", loading := false, error := none,
          recentSearches := ["alien", "batman", "casino", "dune", "elf",
                             "fargo", "gandhi", "heat", "inception", "jaws"] }
        " Batman ").recentSearches.length ≤ 10 :=
  (C6_record_spec
      { query := "", loading := false, error := none,
        recentSearches := ["alien", "batman", "casino", "dune", "elf",
                           "fargo", "gandhi", "heat", "inception", "jaws"] }
      " Batman ").2.1 (by decide)

/-! ## Aggregation lemmas -/

theorem lookupCount_cons (k : String) (c : Nat) (rest : List (String × Nat)) (y : String) :
    lookupCount ((k, c) :: rest) y = if k == y then c else lookupCount rest y := by
  by_cases h : (k == y) = true
  · simp [lookupCount, List.find?_cons, h]
  · have h' : (k == y) = false := by simpa using h
    simp [lookupCount, List.find?_cons, h']

theorem bumpYear_lookup_same (y : String) :
    ∀ l : List (String × Nat), lookupCount (bumpYear l y) y = lookupCount l y + 1 := by
  intro l
  induction l with
  | nil => simp [bumpYear, lookupCount_cons, lookupCount]
  | cons kc rest ih =>
    obtain ⟨k, c⟩ := kc
    by_cases hk : k = y
    · subst hk
      rw [show bumpYear ((k, c) :: rest) k = (k, c + 1) :: rest from by simp [bumpYear]]
      rw [lookupCount_cons, lookupCount_cons]
      simp
    · rw [show bumpYear ((k, c) :: rest) y = (k, c) :: bumpYear rest y from by
          simp [bumpYear, hk]]
      have hkb : (k == y) = false := by simp [hk]
      rw [lookupCount_cons, lookupCount_cons, hkb]
      simpa using ih

theorem bumpYear_lookup_other (y z : String) (hzy : z ≠ y) :
    ∀ l : List (String × Nat), lookupCount (bumpYear l y) z = lookupCount l z := by
  intro l
  induction l with
  | nil =>
    have hyz : (y == z) = false := by simp [Ne.symm hzy]
    simp [bumpYear, lookupCount_cons, hyz, lookupCount]
  | cons kc rest ih =>
    obtain ⟨k, c⟩ := kc
    by_cases hk : k = y
    · subst hk
      rw [show bumpYear ((k, c) :: rest) k = (k, c + 1) :: rest from by simp [bumpYear]]
      have hkz : (k == z) = false := by simp [Ne.symm hzy]
      rw [lookupCount_cons, lookupCount_cons, hkz]
      simp
    · rw [show bumpYear ((k, c) :: rest) y = (k, c) :: bumpYear rest y from by
          simp [bumpYear, hk]]
      rw [lookupCount_cons, lookupCount_cons, ih]

theorem countsFold_lookup (y : String) :
    ∀ (ms : List Movie) (acc : List (String × Nat)),
      lookupCount (ms.foldl (fun a m => bumpYear a m.Year) acc) y
        = lookupCount acc y + ms.countP (fun m => m.Year == y) := by
  intro ms
  induction ms with
  | nil => intro acc; simp
  | cons m rest ih =>
    intro acc
    rw [List.foldl_cons, ih, List.countP_cons]
    by_cases hm : m.Year = y
    · have hb : (m.Year == y) = true := by simp [hm]
      rw [hb, hm, bumpYear_lookup_same]
      simp only [eq_self_iff_true, if_true]
      omega
    · have hb : (m.Year == y) = false := by simp [hm]
      rw [hb, bumpYear_lookup_other m.Year y (Ne.symm hm)]
      simp only [Bool.false_eq_true, if_false]
      omega

theorem keysOf_bumpYear (y : String) :
    ∀ l : List (String × Nat),
      keysOf (bumpYear l y) = if y ∈ keysOf l then keysOf l else keysOf l ++ [y] := by
  intro l
  induction l with
  | nil => simp [bumpYear, keysOf]
  | cons kc rest ih =>
    obtain ⟨k, c⟩ := kc
    by_cases hk : k = y
    · subst hk
      rw [show bumpYear ((k, c) :: rest) k = (k, c + 1) :: rest from by simp [bumpYear]]
      have hmem : k ∈ keysOf ((k, c) :: rest) := by simp [keysOf]
      rw [if_pos hmem]
      simp [keysOf]
    · rw [show bumpYear ((k, c) :: rest) y = (k, c) :: bumpYear rest y from by
          simp [bumpYear, hk]]
      by_cases hmem : y ∈ keysOf rest
      · have hm2 : y ∈ keysOf ((k, c) :: rest) := by simp [keysOf] at hmem ⊢; exact Or.inr hmem
        rw [if_pos hm2]
        simp only [keysOf, List.map] at ih ⊢
        rw [ih, if_pos (by simpa [keysOf] using hmem)]
      · have hm2 : y ∉ keysOf ((k, c) :: rest) := by
          simp [keysOf] at hmem ⊢
          exact ⟨Ne.symm hk, hmem⟩
        rw [if_neg hm2]
        simp only [keysOf, List.map] at ih ⊢
        rw [ih, if_neg (by simpa [keysOf] using hmem)]
        simp

theorem keysOf_counts_nodup :
    ∀ (ms : List Movie) (acc : List (String × Nat)), (keysOf acc).Nodup →
      (keysOf (ms.foldl (fun a m => bumpYear a m.Year) acc)).Nodup := by
  intro ms
  induction ms with
  | nil => intro acc h; exact h
  | cons m rest ih =>
    intro acc h
    rw [List.foldl_cons]
    apply ih
    rw [keysOf_bumpYear]
    split
    · exact h
    · next hnot =>
      have hperm := List.perm_append_singleton m.Year (keysOf acc)
      rw [hperm.nodup_iff]
      exact List.nodup_cons.mpr ⟨hnot, h⟩

theorem keysOf_counts_sub :
    ∀ (ms : List Movie) (acc : List (String × Nat)) (y : String),
      y ∈ keysOf (ms.foldl (fun a m => bumpYear a m.Year) acc) →
      y ∈ keysOf acc ∨ y ∈ ms.map (fun m => m.Year) := by
  intro ms
  induction ms with
  | nil => intro acc y h; exact Or.inl h
  | cons m rest ih =>
    intro acc y h
    rw [List.foldl_cons] at h
    rcases ih (bumpYear acc m.Year) y h with hin | hin
    · rw [keysOf_bumpYear] at hin
      by_cases hc : m.Year ∈ keysOf acc
      · rw [if_pos hc] at hin
        exact Or.inl hin
      · rw [if_neg hc] at hin
        rcases List.mem_append.mp hin with h1 | h1
        · exact Or.inl h1
        · right
          simp at h1
          simp [h1]
    · right
      simp [hin]

theorem mem_lookupCount :
    ∀ (l : List (String × Nat)) (y : String) (c : Nat),
      (keysOf l).Nodup → (y, c) ∈ l → lookupCount l y = c := by
  intro l
  induction l with
  | nil => intro y c _ h; cases h
  | cons kc rest ih =>
    obtain ⟨k, c0⟩ := kc
    intro y c hnd hmem
    have hnd' : k ∉ keysOf rest ∧ (keysOf rest).Nodup := by
      simpa [keysOf, List.nodup_cons] using hnd
    rcases List.mem_cons.mp hmem with he | hm
    · have hy : y = k := congrArg Prod.fst he
      have hc : c = c0 := congrArg Prod.snd he
      rw [lookupCount_cons]
      simp [hy.symm, hc]
    · have hyk : y ≠ k := by
        intro he2
        exact hnd'.1 (he2 ▸ (List.mem_map.mpr ⟨(y, c), hm, rfl⟩))
      have hb : (k == y) = false := by simp [Ne.symm hyk]
      rw [lookupCount_cons, hb]
      simp only [Bool.false_eq_true, if_false]
      exact ih y c hnd'.2 hm

theorem mem_sortInsert {α : Type} (le : α → α → Bool) (a x : α) :
    ∀ l : List α, x ∈ sortInsert le a l ↔ x = a ∨ x ∈ l := by
  intro l
  induction l with
  | nil => simp [sortInsert]
  | cons y ys ih =>
    by_cases h : le a y = true
    · simp only [sortInsert, h, if_true]
      simp [List.mem_cons]
    · have h' : le a y = false := by simpa using h
      simp only [sortInsert, h', Bool.false_eq_true, if_false]
      simp [List.mem_cons, ih]
      tauto

theorem mem_stableSort {α : Type} (le : α → α → Bool) (x : α) :
    ∀ l : List α, x ∈ stableSort le l ↔ x ∈ l := by
  intro l
  induction l with
  | nil => simp [stableSort]
  | cons y ys ih => simp [stableSort, mem_sortInsert, ih]

theorem yearCompare_total (x y : String × Nat) :
    yearCompare x y ≤ 0 ∨ yearCompare y x ≤ 0 := by
  cases hx : jsParseInt x.1 with
  | none => left; simp [yearCompare, hx]
  | some av =>
    cases hy : jsParseInt y.1 with
    | none => left; simp [yearCompare, hx, hy]
    | some bv =>
      simp only [yearCompare, hx, hy]
      omega

theorem yearCompare_trans_parsed {x y z : String × Nat}
    (hx : (jsParseInt x.1).isSome) (hy : (jsParseInt y.1).isSome)
    (hz : (jsParseInt z.1).isSome)
    (h1 : yearCompare x y ≤ 0) (h2 : yearCompare y z ≤ 0) :
    yearCompare x z ≤ 0 := by
  obtain ⟨av, hav⟩ := Option.isSome_iff_exists.mp hx
  obtain ⟨bv, hbv⟩ := Option.isSome_iff_exists.mp hy
  obtain ⟨cv, hcv⟩ := Option.isSome_iff_exists.mp hz
  simp [yearCompare, hav, hbv, hcv] at h1 h2 ⊢
  omega

theorem sortInsert_pairwise (a : String × Nat) (ha : (jsParseInt a.1).isSome) :
    ∀ l : List (String × Nat), (∀ x ∈ l, (jsParseInt x.1).isSome) →
      l.Pairwise (fun p q => yearCompare p q ≤ 0) →
      (sortInsert yearLe a l).Pairwise (fun p q => yearCompare p q ≤ 0) := by
  intro l
  induction l with
  | nil => intro _ _; simp [sortInsert]
  | cons y ys ih =>
    intro hall hp
    have hpy := List.pairwise_cons.mp hp
    by_cases h : yearLe a y = true
    · rw [show sortInsert yearLe a (y :: ys) = a :: y :: ys from by simp [sortInsert, h]]
      refine List.pairwise_cons.mpr ⟨?_, hp⟩
      intro z hz
      have hay : yearCompare a y ≤ 0 := of_decide_eq_true h
      rcases List.mem_cons.mp hz with he | hm
      · rw [he]
        exact hay
      · exact yearCompare_trans_parsed ha (hall y (by simp))
          (hall z (by simp [hm])) hay (hpy.1 z hm)
    · have h' : yearLe a y = false := by simpa using h
      rw [show sortInsert yearLe a (y :: ys) = y :: sortInsert yearLe a ys from by
          simp [sortInsert, h']]
      refine List.pairwise_cons.mpr
        ⟨?_, ih (fun x hx => hall x (by simp [hx])) hpy.2⟩
      intro z hz
      rcases (mem_sortInsert yearLe a z ys).mp hz with he | hm
      · rw [he]
        have hna : ¬ yearCompare a y ≤ 0 := of_decide_eq_false h'
        exact (yearCompare_total a y).resolve_left hna
      · exact hpy.1 z hm

theorem stableSort_pairwise :
    ∀ l : List (String × Nat), (∀ x ∈ l, (jsParseInt x.1).isSome) →
      (stableSort yearLe l).Pairwise (fun p q => yearCompare p q ≤ 0) := by
  intro l
  induction l with
  | nil => intro _; simp [stableSort]
  | cons x xs ih =>
    intro hall
    exact sortInsert_pairwise x (hall x (by simp)) (stableSort yearLe xs)
      (fun z hz => hall z (by simp [(mem_stableSort yearLe z xs).mp hz]))
      (ih (fun z hz => hall z (by simp [hz])))

/-- C9: the count-by-year aggregation returns `[]` on an empty favorites
set; on the sample `[2012, 2012, 2011]` set it returns
`[("2012", 2), ("2011", 1)]`; it always returns at most 10 pairs; every
returned pair carries the exact number of favorites with that year; and
(whenever all years parse as integers) the pairs are sorted by year
descending. -/
theorem C9_year_aggregation :
    yearStats [] = [] ∧
    yearStats [movieA, movieD, movieC] = [("2012", 2), ("2011", 1)] ∧
    (∀ favs : List Movie, (yearStats favs).length ≤ 10) ∧
    (∀ (favs : List Movie) (y : String) (c : Nat),
      (y, c) ∈ yearStats favs → c = favs.countP (fun m => m.Year == y)) ∧
    (∀ favs : List Movie, (∀ m ∈ favs, (jsParseInt m.Year).isSome) →
      (yearStats favs).Pairwise (fun p q => yearCompare p q ≤ 0)) := by
  refine ⟨by decide, by decide, ?_, ?_, ?_⟩
  · intro favs
    unfold yearStats
    rw [List.length_take]
    omega
  · intro favs y c hmem
    have h1 : (y, c) ∈ stableSort yearLe (countsByYear favs) :=
      (List.take_sublist 10 _).mem hmem
    have h2 : (y, c) ∈ countsByYear favs := (mem_stableSort _ _ _).mp h1
    have hnd : (keysOf (countsByYear favs)).Nodup := by
      unfold countsByYear
      exact keysOf_counts_nodup favs [] (by simp [keysOf])
    have hlk : lookupCount (countsByYear favs) y = c :=
      mem_lookupCount _ y c hnd h2
    have hfold : lookupCount (countsByYear favs) y
        = lookupCount [] y + favs.countP (fun m => m.Year == y) := by
      unfold countsByYear
      exact countsFold_lookup y favs []
    have h0 : lookupCount [] y = 0 := by simp [lookupCount]
    omega
  · intro favs hall
    unfold yearStats
    refine List.Pairwise.sublist (List.take_sublist 10 _) ?_
    apply stableSort_pairwise
    intro x hx
    have hkey : x.1 ∈ keysOf (countsByYear favs) := List.mem_map.mpr ⟨x, hx, rfl⟩
    have hsub : x.1 ∈ keysOf ([] : List (String × Nat)) ∨
        x.1 ∈ favs.map (fun m => m.Year) := by
      apply keysOf_counts_sub favs []
      unfold countsByYear at hkey
      exact hkey
    rcases hsub with h0 | h0
    · simp [keysOf] at h0
    · obtain ⟨m, hm, hme⟩ := List.mem_map.mp h0
      rw [← hme]
      exact hall m hm

/-- C9 witness: on the concrete sample, the output is sorted descending,
and the pair `("2012", 2)` carries the exact count of 2012 favorites. -/
theorem C9_year_aggregation_witness :
    ((yearStats [movieA, movieD, movieC]).Pairwise
        (fun p q => yearCompare p q ≤ 0)) ∧
    (2 = [movieA, movieD, movieC].countP (fun m => m.Year == "2012")) :=
  ⟨C9_year_aggregation.2.2.2.2 [movieA, movieD, movieC] (by decide),
   C9_year_aggregation.2.2.2.1 [movieA, movieD, movieC] "2012" 2 (by decide)⟩

end MovieApp
